import Mathlib

/-!
Verification development for the Cashflow repository (React Native client
plus a FastAPI backend reachable only through its HTTP contract).

The client code under `mobile/src` and the context/screen files are embedded
directly: TypeScript functions become Lean functions, JS numbers that hold
money or share counts become `ℚ`, nullable/optional values become `Option`,
and AsyncStorage becomes a total map `String → Option String`.  Backend
behaviour that is not part of the provided source (the sell endpoint, the
forecast engine, the risk engine) is modelled from the specification; each
such definition carries a doc comment starting with `Modelled from the spec:`.
-/

namespace Cashflow

/-! ## Local key-value storage (AsyncStorage) -/

/-- AsyncStorage modelled as a total map from keys to optionally present
string values. -/
def Storage : Type := String → Option String

/-- Empty storage: no key is present. -/
def emptyStorage : Storage := fun _ => none

/-- AsyncStorage.setItem: store a value under a key. -/
def setItem (k v : String) (st : Storage) : Storage :=
  fun q => if q = k then some v else st q

/-- AsyncStorage.removeItem: delete a key. -/
def removeItem (k : String) (st : Storage) : Storage :=
  fun q => if q = k then none else st q

/-- AsyncStorage.getItem: look a key up. -/
def getItem (k : String) (st : Storage) : Option String := st k

/-! ## Colour palette (mobile/src/theme/colors.ts) -/

/-- colors.success in the palette. -/
def colors_success : String := "#28A745"

/-- colors.warning in the palette. -/
def colors_warning : String := "#FFC107"

/-- colors.error in the palette. -/
def colors_error : String := "#DC3545"

/-- colors.textSecondary in the palette. -/
def colors_textSecondary : String := "#6C757D"

/-- colors.dividend in the palette, the only warm orange shade it defines. -/
def colors_dividend : String := "#FD7E14"

/-! ## API client response interceptor (mobile/src/services/api.ts) -/

/-- Result of the axios response interceptor on an error: the storage after
the handler ran, the alert it raised (the interceptor never raises one), and
whether the promise was rejected so the error propagates to the caller. -/
structure InterceptorResult where
  storage : Storage
  alert : Option String
  rejected : Bool

/-- Error branch of the response interceptor in `ApiClient`: on HTTP 401 it
removes the stored `supabase_token` and `supabase_user` keys, shows no alert,
and always returns `Promise.reject(error)`. -/
def respInterceptorOnError (status : Option Nat) (st : Storage) : InterceptorResult :=
  { storage :=
      if status = some 401 then
        removeItem "supabase_user" (removeItem "supabase_token" st)
      else st
    alert := none
    rejected := true }

/-! ## Auth context (context/AuthContext.tsx, src/unnamed/part_001) -/

/-- saveBiometricCredentials: stores the email and password in plaintext
under the `biometric_email` and `biometric_password` keys. -/
def saveBiometricCredentials (email password : String) (st : Storage) : Storage :=
  setItem "biometric_password" password (setItem "biometric_email" email st)

/-- signOut: removes the `supabase_token` and `supabase_user` keys and
deliberately keeps the biometric credentials (the remote
`supabase.auth.signOut()` call touches no local storage). -/
def signOut (st : Storage) : Storage :=
  removeItem "supabase_user" (removeItem "supabase_token" st)

/-- hasBiometricCredentials: true when both `biometric_email` and
`biometric_password` are present and non-empty (JS truthiness of strings). -/
def hasBiometricCredentials (st : Storage) : Bool :=
  match getItem "biometric_email" st, getItem "biometric_password" st with
  | some e, some p => !(e = "") && !(p = "")
  | _, _ => false

/-! ## Holdings and the sell flow (screens/PortfolioScreen.tsx) -/

/-- Holding as listed by the API; only the fields the sell flow touches. -/
structure Holding where
  id : Nat
  shares : ℚ
  deriving DecidableEq

/-- Client-side effect of pressing Sell: either an alert (no API call) or a
POST to /holdings/{id}/sell carrying the parsed share count. -/
inductive SellAction where
  | alert (msg : String)
  | apiSell (holdingId : Nat) (shares : ℚ)
  deriving DecidableEq

/-- handleSellHolding: the guard chain run on press.  The text field is
modelled by its parsed value, `none` when the field is empty.  A missing
holding, an empty field, or a non-positive parse alerts; selling more than
the owned shares alerts with the dedicated message; otherwise the API call
is submitted. -/
def handleSellHolding (selectedHolding : Option Holding) (sellShares : Option ℚ) :
    SellAction :=
  match selectedHolding, sellShares with
  | none, _ => .alert "Please enter valid shares to sell"
  | some _, none => .alert "Please enter valid shares to sell"
  | some h, some s =>
    if s ≤ 0 then .alert "Please enter valid shares to sell"
    else if s > h.shares then .alert "Cannot sell more shares than you own"
    else .apiSell h.id s

/-- Modelled from the spec: the backend handler for POST /holdings/{id}/sell
is not in the provided source.  Per the spec, selling `s` shares with
`0 < s ≤ h.shares` always succeeds and reduces `h.shares` by exactly `s`;
any other request fails without changing the holding. -/
def sellHolding (h : Holding) (s : ℚ) : Option Holding :=
  if 0 < s ∧ s ≤ h.shares then some { h with shares := h.shares - s } else none

/-! ## Risk engine output (spec §4.2) and risk screen (src/unnamed/part_002) -/

/-- Modelled from the spec: the risk engine clamps the raw score to the
closed interval [0, 100]. -/
def clampScore (x : ℚ) : ℚ := max 0 (min 100 x)

/-- Modelled from the spec: the overall risk level label is determined by
the score alone via the documented thresholds (at least 70 low, 50 to 69
moderate, 30 to 49 high, below 30 very high). -/
def riskLevelOfScore (s : ℚ) : String :=
  if 70 ≤ s then "low"
  else if 50 ≤ s then "moderate"
  else if 30 ≤ s then "high"
  else "very high"

/-- Risk result as consumed by the client; only the two fields the claims
about scoring use. -/
structure RiskResult where
  risk_score : ℚ
  overall_risk_level : String

/-- Modelled from the spec: a risk result produced from a raw (unclamped)
score by clamping it and deriving the level from the clamped score. -/
def mkRiskResult (raw : ℚ) : RiskResult :=
  { risk_score := clampScore raw
    overall_risk_level := riskLevelOfScore (clampScore raw) }

/-- Score band explanation rendered under the badge in the risk screen; the
four mutually exclusive conditions on `risk_score` from the source. -/
def scoreExplanation (s : ℚ) : String :=
  if 70 ≤ s then "Low Risk (70-100): Stable, well-diversified portfolio"
  else if 50 ≤ s then "Medium Risk (50-69): Moderate volatility, some concentration"
  else if 30 ≤ s then "High Risk (30-49): High volatility, concentrated positions"
  else "Very High Risk (0-29): Extreme volatility, high concentration risk"

/-- JS String.prototype.toLowerCase on the character list. -/
def jsToLower (s : String) : String := String.mk (s.data.map Char.toLower)

/-- JS String.prototype.trim: drop whitespace from both ends. -/
def jsTrim (s : String) : String :=
  String.mk (((s.data.dropWhile Char.isWhitespace).reverse.dropWhile Char.isWhitespace).reverse)

/-- getRiskColor from the risk analysis screen: lowercases and trims the
level label, then maps it to a palette colour. -/
def getRiskColor (level : String) : String :=
  let normalizedLevel := jsTrim (jsToLower level)
  if normalizedLevel = "low" ∨ normalizedLevel = "very low" then colors_success
  else if normalizedLevel = "moderate" ∨ normalizedLevel = "medium" then colors_warning
  else if normalizedLevel = "high" then colors_error
  else if normalizedLevel = "very high" ∨ normalizedLevel = "extreme" then "#8B0000"
  else colors_textSecondary

/-! ## Risk endpoint response handling (src/unnamed/part_002, runAnalysis) -/

/-- Shape of a successful risk endpoint response as consumed by runAnalysis:
an optional error message, an optional has_holdings flag, and the metrics
when the engine computed them. -/
structure RiskResponse where
  error : Option String
  has_holdings : Option Bool
  metrics : Option RiskResult

/-- JS truthiness of an optional string field: present and non-empty. -/
def truthyStr : Option String → Bool
  | some s => !(s = "")
  | none => false

/-- JS truthiness of an optional boolean field: present and true. -/
def truthyBool : Option Bool → Bool
  | some b => b
  | none => false

/-- Success branch of runAnalysis: when the response carries an error or a
falsy has_holdings, the risk data is cleared (empty state); otherwise the
response is kept and its metrics rendered. -/
def runAnalysisUpdate (resp : RiskResponse) : Option RiskResponse :=
  if truthyStr resp.error || !truthyBool resp.has_holdings then none
  else some resp

/-- Modelled from the spec: the risk endpoints on a portfolio with no
holdings respond with a no-holdings signal (has_holdings = false and no
numeric metrics) instead of a computed result.  The computed result for a
non-empty portfolio is abstracted by the `computed` argument. -/
def riskEndpointResponse (holdings : List Holding) (computed : RiskResult) :
    RiskResponse :=
  if holdings.isEmpty then
    { error := none, has_holdings := some false, metrics := none }
  else
    { error := none, has_holdings := some true, metrics := some computed }

/-! ## Error branches that swallow HTTP 500 (src/unnamed/part_001 and part_002) -/

/-- HTTP failure as observed by a catch block: the response status when a
response exists, and the detail field of its body when present. -/
structure HttpFailure where
  status : Option Nat
  detail : Option String

/-- Alert message taken from the failure: the detail field when truthy, the
screen-specific fallback otherwise (JS `a || b` on strings). -/
def failureMessage (e : HttpFailure) (fallback : String) : String :=
  match e.detail with
  | some d => if d = "" then fallback else d
  | none => fallback

/-- Dividend event as consumed by the calendar screen. -/
structure DividendEvent where
  symbol : String
  ex_date : Option String
  pay_date : Option String
  cash : ℚ
  shares : ℚ

/-- Calendar state kept by the dividends screen. -/
structure CalendarData where
  events : List DividendEvent

/-- Catch branch of loadCalendar: sets calendar data to empty events, and
alerts only when the status is not 500. -/
def loadCalendarOnError (e : HttpFailure) : CalendarData × Option String :=
  ({ events := [] },
   if e.status = some 500 then none
   else some (failureMessage e "Failed to load dividend calendar"))

/-- Catch branch of runAnalysis: clears the risk data, and alerts only when
the status is not 500. -/
def runAnalysisOnError (e : HttpFailure) : Option RiskResponse × Option String :=
  (none,
   if e.status = some 500 then none
   else some (failureMessage e "Failed to run risk analysis"))

/-! ## Multi-portfolio dividend sync (src/unnamed/part_001, syncDividends) -/

/-- Outcome of one portfolio sync call: a thrown error with its message, or
a response whose symbols field may be absent. -/
inductive SyncOutcome where
  | failure (msg : String)
  | success (symbols : Option (List String)) (inserted : Nat)

/-- Mutable accumulators of the syncDividends loop. -/
structure SyncTotals where
  portfoliosSynced : Nat
  totalSymbols : Nat
  totalInserted : Nat
  errors : List String

/-- One iteration of the per-portfolio loop: a failure appends the formatted
message to the error list and continues; a success with a non-empty symbols
list bumps the three counters; anything else changes nothing. -/
def syncStep (acc : SyncTotals) (run : String × SyncOutcome) : SyncTotals :=
  match run.2 with
  | .failure msg => { acc with errors := acc.errors ++ [run.1 ++ ": " ++ msg] }
  | .success none _ => acc
  | .success (some syms) inserted =>
    if syms.length > 0 then
      { acc with
        portfoliosSynced := acc.portfoliosSynced + 1
        totalSymbols := acc.totalSymbols + syms.length
        totalInserted := acc.totalInserted + inserted }
    else acc

/-- syncDividends loop over the portfolio list, given each portfolio name
paired with the outcome of its sync call. -/
def syncDividends (runs : List (String × SyncOutcome)) : SyncTotals :=
  runs.foldl syncStep { portfoliosSynced := 0, totalSymbols := 0, totalInserted := 0, errors := [] }

/-- Claim-side description: the successful calls that returned a non-empty
symbols list, each reduced to its symbol count and inserted count. -/
def countedSyncRuns (runs : List (String × SyncOutcome)) : List (Nat × Nat) :=
  runs.filterMap fun run =>
    match run.2 with
    | .success (some syms) inserted =>
      if syms.length > 0 then some (syms.length, inserted) else none
    | _ => none

/-- Claim-side description: the accumulated error list, one formatted entry
per failed call, in loop order. -/
def syncFailureMessages (runs : List (String × SyncOutcome)) : List String :=
  runs.filterMap fun run =>
    match run.2 with
    | .failure msg => some (run.1 ++ ": " ++ msg)
    | _ => none

/-! ## Forecast months input (screens/ForecastScreen.tsx) -/

/-- State of the forecast-period field: the text shown and the months value
that runForecast submits. -/
structure MonthsState where
  monthsText : String
  months : Nat

/-- Initial state of the forecast screen: useState(12) and useState with
the string 12. -/
def initMonthsState : MonthsState := { monthsText := "12", months := 12 }

/-- onChangeText of the months field: only the empty string or digit-only
text is accepted into monthsText; the months value updates only when the
text parses to a number strictly above zero. -/
def onChangeMonths (st : MonthsState) (text : String) : MonthsState :=
  if text = "" ∨ text.all Char.isDigit then
    { monthsText := text
      months :=
        match text.toNat? with
        | some num => if 0 < num then num else st.months
        | none => st.months }
  else st

/-- onBlur of the months field: an empty or invalid or non-positive text
resets both the text and the months value to the default 12; otherwise the
text is normalised to the parsed number and months is unchanged. -/
def onBlurMonths (st : MonthsState) : MonthsState :=
  match st.monthsText.toNat? with
  | none => { monthsText := "12", months := 12 }
  | some num =>
    if num ≤ 0 then { monthsText := "12", months := 12 }
    else { st with monthsText := toString num }

/-- Events the months field can receive. -/
inductive MonthsEvent where
  | change (text : String)
  | blur

/-- Apply one event to the field state. -/
def applyMonthsEvent (st : MonthsState) : MonthsEvent → MonthsState
  | .change text => onChangeMonths st text
  | .blur => onBlurMonths st

/-- Field state after an arbitrary sequence of edits and blurs. -/
def runMonthsEvents (events : List MonthsEvent) : MonthsState :=
  events.foldl applyMonthsEvent initMonthsState

/-- Months value submitted in the POST /forecasts/monthly body by
runForecast. -/
def submittedMonths (st : MonthsState) : Nat := st.months

/-! ## Forecast engine (spec §4.1) and scenario rates (ForecastScreen picker) -/

/-- Growth scenario selector offered by the forecast screen. -/
inductive GrowthScenario where
  | conservative
  | moderate
  | optimistic
  | pessimistic

/-- Annualized growth rate of each scenario, from the picker labels in the
forecast screen: Conservative 0%, Moderate 2%, Optimistic 5%,
Pessimistic -5%. -/
def scenarioRate : GrowthScenario → ℚ
  | .conservative => 0
  | .moderate => 2 / 100
  | .optimistic => 5 / 100
  | .pessimistic => -5 / 100

/-- Monthly compounding factor of an annualized rate. -/
def monthlyFactor (g : ℚ) : ℚ := 1 + g / 12

/-- Modelled from the spec: the forecast engine is not in the provided
source.  The growth-independent part of the projected monthly income, for a
portfolio abstracted as an initial share count s0, dividend per share dps,
reference share price p0, and a fixed monthly recurring deposit d.  With
reinvestment the dividend income buys income / price shares, which at the
reference ratio adds the factor 1 + dps / p0 per month; the deposit buys
d / p0 shares worth of extra monthly income regardless of the flag. -/
def baseMonthlyIncome (s0 dps p0 d : ℚ) (reinvest : Bool) : Nat → ℚ
  | 0 => s0 * dps
  | m + 1 =>
    baseMonthlyIncome s0 dps p0 d reinvest m * (if reinvest then 1 + dps / p0 else 1)
      + d * (dps / p0)

/-- Modelled from the spec: projected income of month m under annualized
growth rate g, the growth compounding monthly on the income stream. -/
def projectedIncome (s0 dps p0 d : ℚ) (reinvest : Bool) (g : ℚ) (m : Nat) : ℚ :=
  baseMonthlyIncome s0 dps p0 d reinvest m * (monthlyFactor g) ^ m

/-- Modelled from the spec: a scenario total of POST /forecasts/monthly is
the sum of the projected monthly incomes over the horizon, computed
independently under that scenario rate with all other inputs fixed. -/
def scenarioTotal (s0 dps p0 d : ℚ) (reinvest : Bool) (months : Nat) (g : ℚ) : ℚ :=
  ∑ m ∈ Finset.range months, projectedIncome s0 dps p0 d reinvest g m

/-! ## Theorems -/

/-- C4, counterexample: the claim says getRiskColor renders the level
`high` orange rather than red, but the source maps `high` to colors.error,
the palette red #DC3545; the only orange shades in the palette
(colors.dividend #FD7E14, colors.warning #FFC107) are not used for it. -/
theorem claim_C4_counterexample :
    getRiskColor "high" = colors_error ∧
    colors_error = "#DC3545" ∧
    getRiskColor "high" ≠ colors_dividend ∧
    getRiskColor "high" ≠ colors_warning := by
  refine ⟨rfl, rfl, ?_, ?_⟩ <;> decide

/-- C4, amended: getRiskColor maps the four level labels to four pairwise
distinct colours, with low green, moderate yellow, high the palette red
colors.error, and very high dark red #8B0000. -/
theorem claim_C4_color_map :
    getRiskColor "low" = colors_success ∧
    getRiskColor "moderate" = colors_warning ∧
    getRiskColor "high" = colors_error ∧
    getRiskColor "very high" = "#8B0000" ∧
    colors_success ≠ colors_warning ∧
    colors_success ≠ colors_error ∧
    colors_success ≠ "#8B0000" ∧
    colors_warning ≠ colors_error ∧
    colors_warning ≠ "#8B0000" ∧
    colors_error ≠ "#8B0000" := by
  refine ⟨rfl, rfl, rfl, rfl, ?_, ?_, ?_, ?_, ?_, ?_⟩ <;> decide

/-- C8: on an HTTP 401 the response interceptor removes exactly the
supabase_token and supabase_user keys, raises no alert, and still rejects
the promise so the error propagates to the caller. -/
theorem claim_C8_401_interceptor (status : Option Nat) (st : Storage)
    (h : status = some 401) :
    (respInterceptorOnError status st).storage "supabase_token" = none ∧
    (respInterceptorOnError status st).storage "supabase_user" = none ∧
    (∀ k, k ≠ "supabase_token" → k ≠ "supabase_user" →
      (respInterceptorOnError status st).storage k = st k) ∧
    (respInterceptorOnError status st).alert = none ∧
    (respInterceptorOnError status st).rejected = true := by
  subst h
  refine ⟨rfl, rfl, ?_, rfl, rfl⟩
  intro k h1 h2
  simp [respInterceptorOnError, removeItem, h1, h2]

/-- C8 witness: concrete 401 on a store holding a token and a biometric
email; the token is cleared and the unrelated key survives. -/
theorem claim_C8_401_interceptor_witness :
    (respInterceptorOnError (some 401)
      (setItem "biometric_email" "e" (setItem "supabase_token" "t" emptyStorage))).storage
        "supabase_token" = none ∧
    (respInterceptorOnError (some 401)
      (setItem "biometric_email" "e" (setItem "supabase_token" "t" emptyStorage))).storage
        "biometric_email" = some "e" := by
  have h := claim_C8_401_interceptor (some 401)
    (setItem "biometric_email" "e" (setItem "supabase_token" "t" emptyStorage)) rfl
  refine ⟨h.1, ?_⟩
  rw [h.2.2.1 "biometric_email" (by decide) (by decide)]
  rfl

/-- C10: signOut removes exactly the supabase_token and supabase_user keys,
leaves every other key (in particular both biometric credential keys)
unchanged, and after saving non-empty biometric credentials followed by a
sign-out the biometric login path still finds them. -/
theorem claim_C10_signout_frame (st : Storage) :
    signOut st "supabase_token" = none ∧
    signOut st "supabase_user" = none ∧
    (∀ k, k ≠ "supabase_token" → k ≠ "supabase_user" → signOut st k = st k) ∧
    signOut st "biometric_email" = st "biometric_email" ∧
    signOut st "biometric_password" = st "biometric_password" ∧
    (∀ email password, email ≠ "" → password ≠ "" →
      hasBiometricCredentials (signOut (saveBiometricCredentials email password st)) = true) := by
  refine ⟨rfl, rfl, ?_, ?_, ?_, ?_⟩
  · intro k h1 h2
    simp [signOut, removeItem, h1, h2]
  · simp [signOut, removeItem]
  · simp [signOut, removeItem]
  · intro email password h1 h2
    simp [hasBiometricCredentials, getItem, signOut, saveBiometricCredentials,
      setItem, removeItem, h1, h2]

/-- C10 witness: concrete credentials on an empty store survive a sign-out
and keep the biometric path enabled, while the token key is removed. -/
theorem claim_C10_signout_frame_witness :
    signOut (setItem "supabase_token" "t" emptyStorage) "supabase_token" = none ∧
    signOut (setItem "supabase_token" "t" emptyStorage) "biometric_email"
      = (setItem "supabase_token" "t" emptyStorage) "biometric_email" ∧
    hasBiometricCredentials
      (signOut (saveBiometricCredentials "a@b.c" "pw"
        (setItem "supabase_token" "t" emptyStorage))) = true := by
  have h := claim_C10_signout_frame (setItem "supabase_token" "t" emptyStorage)
  exact ⟨h.1, h.2.2.2.1, h.2.2.2.2.2 "a@b.c" "pw" (by decide) (by decide)⟩

/-- C5: a portfolio with zero holdings yields a response with
has_holdings = false and no numeric metrics, and the client maps any
successful response whose has_holdings is absent or falsy to the empty
state (risk data cleared, metrics never rendered). -/
theorem claim_C5_no_holdings (holdings : List Holding) (computed : RiskResult)
    (resp : RiskResponse) :
    (holdings = [] →
      (riskEndpointResponse holdings computed).has_holdings = some false ∧
      (riskEndpointResponse holdings computed).metrics = none ∧
      runAnalysisUpdate (riskEndpointResponse holdings computed) = none) ∧
    (truthyBool resp.has_holdings = false → runAnalysisUpdate resp = none) := by
  constructor
  · intro h
    subst h
    refine ⟨rfl, rfl, ?_⟩
    simp [runAnalysisUpdate, riskEndpointResponse, truthyBool]
  · intro h
    simp [runAnalysisUpdate, h]

/-- C5 witness: the empty portfolio and a response with has_holdings absent
both land in the empty state. -/
theorem claim_C5_no_holdings_witness :
    runAnalysisUpdate (riskEndpointResponse [] (mkRiskResult 50)) = none ∧
    runAnalysisUpdate { error := none, has_holdings := none, metrics := none } = none := by
  have h1 := (claim_C5_no_holdings [] (mkRiskResult 50)
    { error := none, has_holdings := none, metrics := none }).1 rfl
  have h2 := (claim_C5_no_holdings [] (mkRiskResult 50)
    { error := none, has_holdings := none, metrics := none }).2 rfl
  exact ⟨h1.2.2, h2⟩

/-- C7: a failed calendar load or risk request with HTTP status 500 is
swallowed into the empty state with no alert; a failure with any other
status alerts with the detail message from the server body, and the empty
state is set there as well. -/
theorem claim_C7_500_swallowed (e : HttpFailure) :
    (e.status = some 500 →
      (loadCalendarOnError e).1.events = [] ∧
      (loadCalendarOnError e).2 = none ∧
      (runAnalysisOnError e).1 = none ∧
      (runAnalysisOnError e).2 = none) ∧
    (∀ s, e.status = some s → s ≠ 500 →
      ((loadCalendarOnError e).1.events = [] ∧ (runAnalysisOnError e).1 = none) ∧
      (∀ d, e.detail = some d → d ≠ "" →
        (loadCalendarOnError e).2 = some d ∧ (runAnalysisOnError e).2 = some d)) := by
  constructor
  · intro h
    refine ⟨rfl, ?_, rfl, ?_⟩ <;> simp [loadCalendarOnError, runAnalysisOnError, h]
  · intro s hs hne
    refine ⟨⟨rfl, rfl⟩, ?_⟩
    intro d hd hdne
    constructor <;>
      simp [loadCalendarOnError, runAnalysisOnError, failureMessage, hs, hne, hd, hdne]

/-- C7 witness: a 500 with no detail is swallowed; a 404 with detail text
alerts with exactly that text. -/
theorem claim_C7_500_swallowed_witness :
    (loadCalendarOnError { status := some 500, detail := none }).2 = none ∧
    (runAnalysisOnError { status := some 500, detail := none }).2 = none ∧
    (loadCalendarOnError { status := some 404, detail := some "Portfolio not found" }).2
      = some "Portfolio not found" ∧
    (runAnalysisOnError { status := some 404, detail := some "Portfolio not found" }).2
      = some "Portfolio not found" := by
  have h1 := (claim_C7_500_swallowed { status := some 500, detail := none }).1 rfl
  have h2 := ((claim_C7_500_swallowed
    { status := some 404, detail := some "Portfolio not found" }).2 404 rfl
    (by decide)).2 "Portfolio not found" rfl (by decide)
  exact ⟨h1.2.1, h1.2.2.2, h2.1, h2.2⟩

/-- C1: for a holding with non-negative shares, a sell request of s shares
with 0 < s ≤ h.shares passes the client guards, submits the API call, and
the sell reduces the shares by exactly s; a request with s > h.shares is
rejected client-side with the dedicated message, no API call is made, and
the sell operation would refuse it anyway, leaving the holding unchanged. -/
theorem claim_C1_sell_flow (h : Holding) (s : ℚ) (hnn : 0 ≤ h.shares) :
    (0 < s → s ≤ h.shares →
      handleSellHolding (some h) (some s) = SellAction.apiSell h.id s ∧
      sellHolding h s = some { h with shares := h.shares - s }) ∧
    (h.shares < s →
      handleSellHolding (some h) (some s)
        = SellAction.alert "Cannot sell more shares than you own" ∧
      sellHolding h s = none) := by
  constructor
  · intro hpos hle
    constructor
    · simp [handleSellHolding, not_le.mpr hpos, not_lt.mpr hle]
    · simp [sellHolding, hpos, hle]
  · intro hgt
    have hpos : 0 < s := lt_of_le_of_lt hnn hgt
    constructor
    · simp [handleSellHolding, not_le.mpr hpos, hgt]
    · simp [sellHolding, not_le.mpr hgt]

/-- C1 witness: owning 5 shares, selling 3 goes through and leaves 2;
selling 7 is refused with the exact message and no state change. -/
theorem claim_C1_sell_flow_witness :
    handleSellHolding (some { id := 1, shares := 5 }) (some 3)
      = SellAction.apiSell 1 3 ∧
    (sellHolding { id := 1, shares := 5 } 3).map Holding.shares = some 2 ∧
    handleSellHolding (some { id := 1, shares := 5 }) (some 7)
      = SellAction.alert "Cannot sell more shares than you own" ∧
    sellHolding { id := 1, shares := 5 } 7 = none := by
  have h1 := (claim_C1_sell_flow { id := 1, shares := 5 } 3 (by norm_num)).1
    (by norm_num) (by norm_num)
  have h2 := (claim_C1_sell_flow { id := 1, shares := 5 } 7 (by norm_num)).2
    (by norm_num)
  refine ⟨h1.1, ?_, h2.1, h2.2⟩
  rw [h1.2]
  norm_num

/-- C3: every produced risk result has its score in [0, 100], its level is
the pure threshold function of its score, equal scores give equal levels,
and the thresholds are at least 70 low, 50 to 69 moderate, 30 to 49 high,
below 30 very high. -/
theorem claim_C3_score_level (raw a b s : ℚ) :
    (0 ≤ (mkRiskResult raw).risk_score ∧ (mkRiskResult raw).risk_score ≤ 100) ∧
    (mkRiskResult raw).overall_risk_level
      = riskLevelOfScore (mkRiskResult raw).risk_score ∧
    ((mkRiskResult a).risk_score = (mkRiskResult b).risk_score →
      (mkRiskResult a).overall_risk_level = (mkRiskResult b).overall_risk_level) ∧
    (70 ≤ s → riskLevelOfScore s = "low") ∧
    (50 ≤ s → s < 70 → riskLevelOfScore s = "moderate") ∧
    (30 ≤ s → s < 50 → riskLevelOfScore s = "high") ∧
    (s < 30 → riskLevelOfScore s = "very high") := by
  refine ⟨⟨le_max_left 0 _, max_le (by norm_num) (min_le_left 100 raw)⟩, rfl, ?_, ?_, ?_, ?_, ?_⟩
  · intro hab
    simp only [mkRiskResult] at hab ⊢
    rw [hab]
  · intro h70
    simp [riskLevelOfScore, h70]
  · intro h50 h70
    rw [riskLevelOfScore, if_neg (by linarith), if_pos h50]
  · intro h30 h50
    rw [riskLevelOfScore, if_neg (by linarith), if_neg (by linarith), if_pos h30]
  · intro h30
    rw [riskLevelOfScore, if_neg (by linarith), if_neg (by linarith), if_neg (by linarith)]

/-- C3 witness: a raw score of 120 clamps into [0, 100]; raw 300 and 101
clamp to the same score and get the same level; the four bands at 85, 55,
35 and 5 give the documented labels. -/
theorem claim_C3_score_level_witness :
    (0 ≤ (mkRiskResult 120).risk_score ∧ (mkRiskResult 120).risk_score ≤ 100) ∧
    (mkRiskResult 300).overall_risk_level = (mkRiskResult 101).overall_risk_level ∧
    riskLevelOfScore 85 = "low" ∧
    riskLevelOfScore 55 = "moderate" ∧
    riskLevelOfScore 35 = "high" ∧
    riskLevelOfScore 5 = "very high" := by
  have h120 := claim_C3_score_level 120 300 101 85
  have h55 := claim_C3_score_level 120 300 101 55
  have h35 := claim_C3_score_level 120 300 101 35
  have h5 := claim_C3_score_level 120 300 101 5
  refine ⟨h120.1, ?_, ?_, ?_, ?_, ?_⟩
  · exact h120.2.2.1 (by norm_num [mkRiskResult, clampScore])
  · exact h120.2.2.2.1 (by norm_num)
  · exact h55.2.2.2.2.1 (by norm_num) (by norm_num)
  · exact h35.2.2.2.2.2.1 (by norm_num) (by norm_num)
  · exact h5.2.2.2.2.2.2 (by norm_num)

/-- Positivity of the months value is preserved by every single field
event: a change only installs a parsed value when it is strictly positive,
and a blur either keeps the value or resets it to 12. -/
theorem applyMonthsEvent_pos (st : MonthsState) (hst : 0 < st.months)
    (ev : MonthsEvent) : 0 < (applyMonthsEvent st ev).months := by
  cases ev with
  | change text =>
    simp only [applyMonthsEvent, onChangeMonths]
    split
    · cases htn : text.toNat? with
      | none => simpa [htn]
      | some num =>
        simp only [htn]
        split
        · simpa using by assumption
        · simpa
    · exact hst
  | blur =>
    simp only [applyMonthsEvent, onBlurMonths]
    cases htn : st.monthsText.toNat? with
    | none => norm_num
    | some num =>
      simp only []
      split
      · norm_num
      · exact hst

/-- C9: after any sequence of text edits and blurs on the forecast-period
field, the months value that runForecast submits to POST /forecasts/monthly
is strictly positive, so the client never sends months ≤ 0. -/
theorem claim_C9_months_positive (events : List MonthsEvent) :
    0 < submittedMonths (runMonthsEvents events) := by
  suffices h : ∀ (l : List MonthsEvent) (st : MonthsState), 0 < st.months →
      0 < (l.foldl applyMonthsEvent st).months by
    exact h events initMonthsState (by norm_num [initMonthsState])
  intro l
  induction l with
  | nil => intro st hst; simpa using hst
  | cons e t ih =>
    intro st hst
    exact ih (applyMonthsEvent st e) (applyMonthsEvent_pos st hst e)

/-- Generalised accumulator form of the sync loop: starting from any
accumulator, the loop adds exactly the counts of the successful non-empty
runs and appends exactly the formatted failure messages. -/
theorem syncDividends_foldl (runs : List (String × SyncOutcome)) :
    ∀ acc : SyncTotals, runs.foldl syncStep acc =
      { portfoliosSynced := acc.portfoliosSynced + (countedSyncRuns runs).length
        totalSymbols := acc.totalSymbols + ((countedSyncRuns runs).map Prod.fst).sum
        totalInserted := acc.totalInserted + ((countedSyncRuns runs).map Prod.snd).sum
        errors := acc.errors ++ syncFailureMessages runs } := by
  induction runs with
  | nil =>
    intro acc
    simp [countedSyncRuns, syncFailureMessages]
  | cons r t ih =>
    intro acc
    obtain ⟨name, outcome⟩ := r
    rw [List.foldl_cons, ih]
    cases outcome with
    | failure msg =>
      simp [syncStep, countedSyncRuns, syncFailureMessages, List.filterMap_cons]
    | success symbols inserted =>
      cases symbols with
      | none =>
        simp [syncStep, countedSyncRuns, syncFailureMessages, List.filterMap_cons]
      | some syms =>
        by_cases hl : syms.length > 0
        · simp only [syncStep, countedSyncRuns, syncFailureMessages,
            List.filterMap_cons, if_pos hl]
          simp [hl]
          omega
        · simp [syncStep, countedSyncRuns, syncFailureMessages,
            List.filterMap_cons, hl]

/-- C6: the sync loop never aborts on a failed portfolio: its error list is
exactly the formatted messages of the failed calls in order, and the three
summary counts are exactly the number of, total symbol count of, and total
inserted count of the successful calls that returned a non-empty symbols
list. -/
theorem claim_C6_sync_accumulates (runs : List (String × SyncOutcome)) :
    (syncDividends runs).errors = syncFailureMessages runs ∧
    (syncDividends runs).portfoliosSynced = (countedSyncRuns runs).length ∧
    (syncDividends runs).totalSymbols = ((countedSyncRuns runs).map Prod.fst).sum ∧
    (syncDividends runs).totalInserted = ((countedSyncRuns runs).map Prod.snd).sum := by
  rw [syncDividends, syncDividends_foldl]
  simp

/-- Growth-independent projected base income is non-negative for
non-negative portfolio parameters. -/
theorem baseMonthlyIncome_nonneg (s0 dps p0 d : ℚ) (reinvest : Bool)
    (h0 : 0 ≤ s0) (h1 : 0 ≤ dps) (h2 : 0 ≤ p0) (h3 : 0 ≤ d) :
    ∀ m, 0 ≤ baseMonthlyIncome s0 dps p0 d reinvest m := by
  intro m
  induction m with
  | zero => exact mul_nonneg h0 h1
  | succ m ih =>
    rw [baseMonthlyIncome]
    have hdiv : 0 ≤ dps / p0 := div_nonneg h1 h2
    apply add_nonneg
    · apply mul_nonneg ih
      cases reinvest
      · simp
      · simp only [if_true]
        linarith
    · exact mul_nonneg h3 hdiv

/-- Scenario totals are monotone in the growth rate whenever the smaller
monthly factor stays non-negative. -/
theorem scenarioTotal_mono (s0 dps p0 d : ℚ) (reinvest : Bool) (months : Nat)
    (g1 g2 : ℚ) (h0 : 0 ≤ s0) (h1 : 0 ≤ dps) (h2 : 0 ≤ p0) (h3 : 0 ≤ d)
    (hx : 0 ≤ monthlyFactor g1) (hg : g1 ≤ g2) :
    scenarioTotal s0 dps p0 d reinvest months g1
      ≤ scenarioTotal s0 dps p0 d reinvest months g2 := by
  apply Finset.sum_le_sum
  intro m _
  unfold projectedIncome
  apply mul_le_mul_of_nonneg_left _
    (baseMonthlyIncome_nonneg s0 dps p0 d reinvest h0 h1 h2 h3 m)
  apply pow_le_pow_left₀ hx
  unfold monthlyFactor at hx ⊢
  linarith

/-- C2: for every portfolio with non-negative parameters and every fixed
horizon, reinvestment flag and recurring deposit, the four scenario totals
are ordered pessimistic ≤ conservative ≤ moderate ≤ optimistic, the totals
being monotone in the annualized rates -5%, 0%, +2%, +5%. -/
theorem claim_C2_scenario_order (s0 dps p0 d : ℚ) (reinvest : Bool) (months : Nat)
    (h0 : 0 ≤ s0) (h1 : 0 ≤ dps) (h2 : 0 ≤ p0) (h3 : 0 ≤ d) :
    scenarioTotal s0 dps p0 d reinvest months (scenarioRate GrowthScenario.pessimistic)
      ≤ scenarioTotal s0 dps p0 d reinvest months (scenarioRate GrowthScenario.conservative) ∧
    scenarioTotal s0 dps p0 d reinvest months (scenarioRate GrowthScenario.conservative)
      ≤ scenarioTotal s0 dps p0 d reinvest months (scenarioRate GrowthScenario.moderate) ∧
    scenarioTotal s0 dps p0 d reinvest months (scenarioRate GrowthScenario.moderate)
      ≤ scenarioTotal s0 dps p0 d reinvest months (scenarioRate GrowthScenario.optimistic) := by
  refine ⟨?_, ?_, ?_⟩ <;>
    apply scenarioTotal_mono s0 dps p0 d reinvest months _ _ h0 h1 h2 h3 <;>
    norm_num [monthlyFactor, scenarioRate]

/-- C2 witness: a concrete portfolio with 10 shares paying 1 per month at
reference price 100, a 5 deposit, reinvestment on and a 12 month horizon
satisfies the scenario ordering. -/
theorem claim_C2_scenario_order_witness :
    scenarioTotal 10 1 100 5 true 12 (scenarioRate GrowthScenario.pessimistic)
      ≤ scenarioTotal 10 1 100 5 true 12 (scenarioRate GrowthScenario.conservative) ∧
    scenarioTotal 10 1 100 5 true 12 (scenarioRate GrowthScenario.conservative)
      ≤ scenarioTotal 10 1 100 5 true 12 (scenarioRate GrowthScenario.moderate) ∧
    scenarioTotal 10 1 100 5 true 12 (scenarioRate GrowthScenario.moderate)
      ≤ scenarioTotal 10 1 100 5 true 12 (scenarioRate GrowthScenario.optimistic) :=
  claim_C2_scenario_order 10 1 100 5 true 12 (by norm_num) (by norm_num)
    (by norm_num) (by norm_num)

end Cashflow
